import Mathlib

/-!
Verification of the B-allele-frequency (BAF) module `BAlleleFreqFormat.py`
from the GTCtoVCF repository: allele-string parsing, strand complementation,
indel resolution, and per-variant frequency aggregation.

Modelling conventions of the shallow embedding:
* a Python string is its list of characters (`Str := List Char`);
* a float that may be NaN is `Option ℚ`, with `none` standing for NaN
  (so `1. - x` is `Option.map (fun q => 1 - q)`, which propagates NaN);
* `assert` failures, tuple-unpack failures and dict `KeyError`s become the
  `Except BafError` error monad, with one constructor per failure site;
* the externally supplied per-probe frequency array is an index-addressable
  total map `Nat → Option ℚ`;
* `np.nanmedian` is `nanmedian`: drop the `none` entries, sort, and take the
  middle element (odd length) or the mean of the two middle elements (even
  length); the median of an empty collection is NaN (`none`).
-/

deriving instance DecidableEq for Except

namespace GTCtoVCF

/-- A Python string, modelled as its list of characters. -/
abbrev Str := List Char

/-- The failure modes of the module: the named errors of the error taxonomy
(invalid allele code, indel against a multi-allelic record, indel with
equal-length REF/ALT, resolved pair matching neither REF position), plus the
tuple-unpack failure of `split` and dict `KeyError` (both unreachable on the
inputs the module accepts). -/
inductive BafError where
  | invalidAllele (a : Str)
  | splitUnpack
  | keyError
  | multiAllelicIndel
  | ambiguousIndelLength
  | alleleMismatch
  deriving DecidableEq

/-- The `IlluminaBeadArrayFiles.RefStrand` enumeration. -/
inductive RefStrand where
  | Unknown
  | Plus
  | Minus
  deriving DecidableEq

/-- The fields of a VCF variant record that the module reads: the reference
allele sequence `REF` and the list `ALT` of alternate allele sequences. -/
structure VcfRecord where
  REF : Str
  ALT : List Str
  deriving DecidableEq

/-- The fields of a BPM manifest record that the module reads: the SNP
bracket string, the designed strand, the row index into the frequency
array, and the indel flag (Python `bpm_record.is_indel()`). -/
structure BPMRecord where
  snp : Str
  ref_strand : RefStrand
  index_num : Nat
  is_indel : Bool
  deriving DecidableEq

/-- Python `s.split(sep)` for a one-character separator, on the character
list: splits at every occurrence of `sep` and keeps empty tokens, so that
`"".split(sep) = [""]` and `"a/b".split("/") = ["a", "b"]`. -/
def pySplit (sep : Char) : Str → List Str
  | [] => [[]]
  | c :: rest =>
    if c = sep then [] :: pySplit sep rest
    else
      match pySplit sep rest with
      | [] => [[c]]
      | p :: ps => (c :: p) :: ps

/-- The dict `REVERSE_COMPLEMENT = {"A": "T", "T": "A", "G": "C", "C": "G",
"I": "I", "D": "D"}`, as a partial lookup: `none` means the key is absent
(i.e. the allele code is invalid). -/
def REVERSE_COMPLEMENT (allele : Str) : Option Str :=
  if allele = ['A'] then some ['T']
  else if allele = ['T'] then some ['A']
  else if allele = ['G'] then some ['C']
  else if allele = ['C'] then some ['G']
  else if allele = ['I'] then some ['I']
  else if allele = ['D'] then some ['D']
  else none

/-- `extract_alleles_from_snp_string`: take the slice `snp_string[1:4]`,
split it on `"/"`, unpack into exactly two tokens (tuple-unpack failure
otherwise), and check each token is a key of `REVERSE_COMPLEMENT`, first
token first (the two `assert` statements of the source). -/
def extract_alleles_from_snp_string (snp_string : Str) :
    Except BafError (Str × Str) :=
  match pySplit '/' ((snp_string.drop 1).take 3) with
  | [allele1, allele2] =>
    if (REVERSE_COMPLEMENT allele1).isSome then
      if (REVERSE_COMPLEMENT allele2).isSome then .ok (allele1, allele2)
      else .error (.invalidAllele allele2)
    else .error (.invalidAllele allele1)
  | _ => .error .splitUnpack

/-- The complementation step of line 37 of the source: look both alleles up
in `REVERSE_COMPLEMENT` (a missing key would be a Python `KeyError`). -/
def complement_pair (allele1 allele2 : Str) : Except BafError (Str × Str) :=
  match REVERSE_COMPLEMENT allele1, REVERSE_COMPLEMENT allele2 with
  | some b1, some b2 => .ok (b1, b2)
  | _, _ => .error .keyError

/-- `extract_reverse_complement_alleles_from_snp_string`: parse the SNP
string, then return the reverse complement of each allele. -/
def extract_reverse_complement_alleles_from_snp_string (snp_string : Str) :
    Except BafError (Str × Str) :=
  match extract_alleles_from_snp_string snp_string with
  | .error e => .error e
  | .ok (allele1, allele2) => complement_pair allele1 allele2

/-- `convert_indel_alleles`: parse the SNP string keeping only the first
allele, require exactly one ALT (assert at line 54), require REF and ALT of
different lengths (assert at line 58), call the shorter sequence the
deletion and the longer the insertion, and order the result by whether the
first parsed allele is `"I"`. -/
def convert_indel_alleles (snp_string : Str) (vcf_record : VcfRecord) :
    Except BafError (Str × Str) :=
  match extract_alleles_from_snp_string snp_string with
  | .error e => .error e
  | .ok (allele1, _) =>
    match vcf_record.ALT with
    | [alt_allele] =>
      let ref_allele := vcf_record.REF
      if alt_allele.length > ref_allele.length ∨
          ref_allele.length > alt_allele.length then
        let p : Str × Str :=
          if alt_allele.length < ref_allele.length then (alt_allele, ref_allele)
          else (ref_allele, alt_allele)
        if allele1 = ['I'] then .ok (p.2, p.1)
        else .ok (p.1, p.2)
      else .error .ambiguousIndelLength
    | _ => .error .multiAllelicIndel

/-- The three-way dispatch of lines 107–113 of
`generate_sample_format_info`: indel probes go through
`convert_indel_alleles`, minus-strand probes through the reverse-complement
parse, and all other probes through the plain parse. -/
def resolve_allele_pair (bpm_record : BPMRecord) (vcf_record : VcfRecord) :
    Except BafError (Str × Str) :=
  if bpm_record.is_indel then
    convert_indel_alleles bpm_record.snp vcf_record
  else if bpm_record.ref_strand = RefStrand.Minus then
    extract_reverse_complement_alleles_from_snp_string bpm_record.snp
  else
    extract_alleles_from_snp_string bpm_record.snp

/-- One iteration of the per-probe loop (lines 100–123): resolve the
probe's allele pair, require that it contains the record's REF allele
(assert at line 117), and orient the measured frequency: unchanged when the
first allele is REF, `1 - freq` when the second is. -/
def orient_one_probe (b_allele_freq : Nat → Option ℚ)
    (vcf_record : VcfRecord) (bpm_record : BPMRecord) :
    Except BafError (Option ℚ) :=
  match resolve_allele_pair bpm_record vcf_record with
  | .error e => .error e
  | .ok (allele1, allele2) =>
    if allele1 = vcf_record.REF ∨ allele2 = vcf_record.REF then
      if allele1 = vcf_record.REF then
        .ok (b_allele_freq bpm_record.index_num)
      else
        .ok ((b_allele_freq bpm_record.index_num).map (fun q => 1 - q))
    else .error .alleleMismatch

/-- The whole per-probe loop: build `b_allele_freq_list` in probe order,
stopping at the first failing probe. -/
def collectFreqs (b_allele_freq : Nat → Option ℚ) (vcf_record : VcfRecord) :
    List BPMRecord → Except BafError (List (Option ℚ))
  | [] => .ok []
  | r :: rs =>
    match orient_one_probe b_allele_freq vcf_record r with
    | .error e => .error e
    | .ok v =>
      match collectFreqs b_allele_freq vcf_record rs with
      | .error e => .error e
      | .ok vs => .ok (v :: vs)

/-- Insert a rational into an ascending-sorted list. -/
def insertSorted (x : ℚ) : List ℚ → List ℚ
  | [] => [x]
  | y :: ys => if x ≤ y then x :: y :: ys else y :: insertSorted x ys

/-- Ascending insertion sort of a list of rationals. -/
def sortRats : List ℚ → List ℚ
  | [] => []
  | x :: xs => insertSorted x (sortRats xs)

/-- `np.median` of a list of (non-NaN) values: sort ascending, take the
middle element for odd length and the mean of the two middle elements for
even length; the median of an empty list is NaN (`none`). -/
def median (vals : List ℚ) : Option ℚ :=
  let sorted := sortRats vals
  let n := sorted.length
  if n = 0 then none
  else if n % 2 = 1 then some (sorted.getD (n / 2) 0)
  else some ((sorted.getD (n / 2 - 1) 0 + sorted.getD (n / 2) 0) / 2)

/-- `np.nanmedian`: the median computed over only the non-NaN entries. -/
def nanmedian (xs : List (Option ℚ)) : Option ℚ :=
  median (xs.filterMap id)

/-- `BAlleleFreqFormat.generate_sample_format_info` (the `sample_name`
argument is unused by the source and omitted): return `"."` at once when
the record has more than one ALT allele; otherwise run the per-probe loop,
take the NaN-ignoring median of the collected oriented frequencies, and
return `"."` when that median is NaN, the numeric value otherwise. -/
def generate_sample_format_info (b_allele_freq : Nat → Option ℚ)
    (bpm_records : List BPMRecord) (vcf_record : VcfRecord) :
    Except BafError (Str ⊕ ℚ) :=
  if vcf_record.ALT.length > 1 then .ok (Sum.inl ['.'])
  else
    match collectFreqs b_allele_freq vcf_record bpm_records with
    | .error e => .error e
    | .ok b_allele_freq_list =>
      match nanmedian b_allele_freq_list with
      | none => .ok (Sum.inl ['.'])
      | some q => .ok (Sum.inr q)

/-! ### Helper lemmas -/

/-- The only keys of `REVERSE_COMPLEMENT` are the six valid codes. -/
theorem rc_valid_elim (a : Str) (h : (REVERSE_COMPLEMENT a).isSome) :
    a = ['A'] ∨ a = ['T'] ∨ a = ['G'] ∨ a = ['C'] ∨ a = ['I'] ∨ a = ['D'] := by
  unfold REVERSE_COMPLEMENT at h
  split_ifs at h with h1 h2 h3 h4 h5 h6 <;> tauto

/-- Splitting a three-character window `X/Y` on `/` yields the two
single-character tokens, provided neither flank is itself a slash. -/
theorem pySplit_pair (X Y : Char) (hX : X ≠ '/') (hY : Y ≠ '/') :
    pySplit '/' [X, '/', Y] = [[X], [Y]] := by
  simp [pySplit, hX, hY]

/-- Inserting into a sorted list grows the length by one. -/
theorem insertSorted_length (x : ℚ) (l : List ℚ) :
    (insertSorted x l).length = l.length + 1 := by
  induction l with
  | nil => rfl
  | cons y ys ih =>
    unfold insertSorted
    split <;> simp [ih]

/-- Sorting preserves length. -/
theorem sortRats_length (l : List ℚ) : (sortRats l).length = l.length := by
  induction l with
  | nil => rfl
  | cons x xs ih => simp [sortRats, insertSorted_length, ih]

/-- The median of a one-element list is its element. -/
theorem median_singleton (q : ℚ) : median [q] = some q := by
  simp [median, sortRats, insertSorted]

/-- A nonempty list of values has a numeric median. -/
theorem median_of_ne_nil (vals : List ℚ) (h : vals ≠ []) :
    ∃ q, median vals = some q := by
  unfold median
  have hn : (sortRats vals).length ≠ 0 := by
    rw [sortRats_length]
    simpa using h
  rw [if_neg hn]
  split <;> exact ⟨_, rfl⟩

/-- If one probe of the list fails orientation, the whole loop fails with
that probe's error, provided the preceding probes all succeed. -/
theorem collectFreqs_error_mid (freq : Nat → Option ℚ) (rec : VcfRecord)
    (pre post : List BPMRecord) (r : BPMRecord) (lst : List (Option ℚ))
    (e : BafError)
    (hpre : collectFreqs freq rec pre = .ok lst)
    (hr : orient_one_probe freq rec r = .error e) :
    collectFreqs freq rec (pre ++ r :: post) = .error e := by
  induction pre generalizing lst with
  | nil => simp [collectFreqs, hr]
  | cons x xs ih =>
    rw [List.cons_append]
    cases hx : orient_one_probe freq rec x with
    | error e' => simp [collectFreqs, hx] at hpre
    | ok v =>
      cases hxs : collectFreqs freq rec xs with
      | error e' => simp [collectFreqs, hx, hxs] at hpre
      | ok vs => simp [collectFreqs, hx, hxs, ih vs hxs]

/-! ### Claims -/

/-- Claim C1: for a variant record with exactly one alternate allele and a
single non-indel plus-strand probe, the aggregator returns the measured
frequency unchanged when the parsed pair lists the reference allele first,
and `1 - frequency` when the reference allele is in the second position
(so a measured 0.3 yields 0.3 and 0.7 respectively). -/
theorem C1_single_probe_orientation (freq : Nat → Option ℚ) (q : ℚ)
    (idx : Nat) (snp1 snp2 ref other alt : Str)
    (h1 : extract_alleles_from_snp_string snp1 = .ok (ref, other))
    (h2 : extract_alleles_from_snp_string snp2 = .ok (other, ref))
    (hne : other ≠ ref)
    (hf : freq idx = some q) :
    generate_sample_format_info freq [⟨snp1, RefStrand.Plus, idx, false⟩]
        ⟨ref, [alt]⟩ = .ok (Sum.inr q) ∧
    generate_sample_format_info freq [⟨snp2, RefStrand.Plus, idx, false⟩]
        ⟨ref, [alt]⟩ = .ok (Sum.inr (1 - q)) := by
  constructor
  · simp [generate_sample_format_info, collectFreqs, orient_one_probe,
      resolve_allele_pair, h1, hf, nanmedian, median_singleton]
  · simp [generate_sample_format_info, collectFreqs, orient_one_probe,
      resolve_allele_pair, h2, hf, hne, nanmedian, median_singleton]

/-- Witness for C1 at measured frequency 3/10: pair (A, G) against REF "A"
gives 3/10, and pair (G, A) gives 7/10. -/
theorem C1_witness :
    generate_sample_format_info (fun _ => some (3/10))
        [⟨"[A/G]".data, RefStrand.Plus, 0, false⟩] ⟨"A".data, ["G".data]⟩
      = .ok (Sum.inr (3/10)) ∧
    generate_sample_format_info (fun _ => some (3/10))
        [⟨"[G/A]".data, RefStrand.Plus, 0, false⟩] ⟨"A".data, ["G".data]⟩
      = .ok (Sum.inr (7/10)) := by
  have h := C1_single_probe_orientation (fun _ => some (3/10)) (3/10) 0
    "[A/G]".data "[G/A]".data "A".data "G".data "G".data
    (by decide) (by decide) (by decide) rfl
  refine ⟨h.1, ?_⟩
  have e : (1 : ℚ) - 3/10 = 7/10 := by norm_num
  rw [h.2, e]

/-- Claim C2: the final reduction of `generate_sample_format_info` is the
median over only the non-missing collected oriented frequencies; it
returns `"."` when every collected value is missing or the probe list is
empty, and the numeric median otherwise. -/
theorem C2_median_reduction (freq : Nat → Option ℚ)
    (records : List BPMRecord) (rec : VcfRecord) (lst : List (Option ℚ))
    (halt : ¬ rec.ALT.length > 1)
    (hc : collectFreqs freq rec records = .ok lst) :
    (lst.filterMap id = [] →
      generate_sample_format_info freq records rec = .ok (Sum.inl ['.'])) ∧
    (∀ q, median (lst.filterMap id) = some q →
      generate_sample_format_info freq records rec = .ok (Sum.inr q)) ∧
    (lst.filterMap id ≠ [] → ∃ q, median (lst.filterMap id) = some q ∧
      generate_sample_format_info freq records rec = .ok (Sum.inr q)) := by
  unfold generate_sample_format_info
  rw [if_neg halt, hc]
  refine ⟨?_, ?_, ?_⟩
  · intro h; simp [nanmedian, h, median, sortRats]
  · intro q hm; simp [nanmedian, hm]
  · intro h
    obtain ⟨q, hq⟩ := median_of_ne_nil _ h
    exact ⟨q, hq, by simp [nanmedian, hq]⟩

/-- Witness for C2: three probes with oriented frequencies 1/5, 2/5 and
3/5 yield their median 2/5. -/
theorem C2_witness :
    generate_sample_format_info
        (fun n => if n = 0 then some (1/5) else if n = 1 then some (2/5)
          else some (3/5))
        [⟨"[A/G]".data, RefStrand.Plus, 0, false⟩,
         ⟨"[A/G]".data, RefStrand.Plus, 1, false⟩,
         ⟨"[A/G]".data, RefStrand.Plus, 2, false⟩]
        ⟨"A".data, ["G".data]⟩ = .ok (Sum.inr (2/5)) := by
  have h := (C2_median_reduction
    (fun n => if n = 0 then some (1/5) else if n = 1 then some (2/5)
      else some (3/5))
    [⟨"[A/G]".data, RefStrand.Plus, 0, false⟩,
     ⟨"[A/G]".data, RefStrand.Plus, 1, false⟩,
     ⟨"[A/G]".data, RefStrand.Plus, 2, false⟩]
    ⟨"A".data, ["G".data]⟩
    [some (1/5), some (2/5), some (3/5)]
    (by decide) rfl).2.1 (2/5)
  exact h (by norm_num [median, sortRats, insertSorted])

/-- Claim C3: with exactly one alternate allele of length different from
the reference's, `convert_indel_alleles` takes the shorter of the two
sequences as the deletion allele and the longer as the insertion allele,
returning (insertion, deletion) when the first parsed placeholder is "I"
and (deletion, insertion) otherwise. -/
theorem C3_indel_resolution (snp ref alt a1 a2 : Str)
    (hx : extract_alleles_from_snp_string snp = .ok (a1, a2))
    (hlen : ref.length ≠ alt.length) :
    convert_indel_alleles snp ⟨ref, [alt]⟩ =
      .ok (if a1 = ['I']
        then ((if ref.length < alt.length then alt else ref),
              (if ref.length < alt.length then ref else alt))
        else ((if ref.length < alt.length then ref else alt),
              (if ref.length < alt.length then alt else ref))) := by
  by_cases hI : a1 = ['I'] <;> rcases Nat.lt_or_gt_of_ne hlen with h | h <;>
    simp [convert_indel_alleles, hx, hI, h, Nat.lt_asymm h]

/-- Witness for C3: REF "A", ALT "ATG"; pair (I, D) resolves to
("ATG", "A") and pair (D, I) resolves to ("A", "ATG"). -/
theorem C3_witness :
    convert_indel_alleles "[I/D]".data ⟨"A".data, ["ATG".data]⟩
      = .ok ("ATG".data, "A".data) ∧
    convert_indel_alleles "[D/I]".data ⟨"A".data, ["ATG".data]⟩
      = .ok ("A".data, "ATG".data) := by
  constructor
  · have h := C3_indel_resolution "[I/D]".data "A".data "ATG".data
      ['I'] ['D'] (by decide) (by decide)
    rw [h]; decide
  · have h := C3_indel_resolution "[D/I]".data "A".data "ATG".data
      ['D'] ['I'] (by decide) (by decide)
    rw [h]; decide

/-- Claim C4: with more than one alternate allele,
`generate_sample_format_info` returns the missing-value sentinel "."
immediately, before any probe is processed, for every probe list. -/
theorem C4_multiallelic_short_circuit (freq : Nat → Option ℚ)
    (records : List BPMRecord) (rec : VcfRecord)
    (h : rec.ALT.length > 1) :
    generate_sample_format_info freq records rec = .ok (Sum.inl ['.']) := by
  unfold generate_sample_format_info
  rw [if_pos h]

/-- Witness for C4: two alternate alleles and a malformed probe string
still produce ".", without any error. -/
theorem C4_witness :
    generate_sample_format_info (fun _ => none)
        [⟨"XX".data, RefStrand.Plus, 5, false⟩]
        ⟨"A".data, ["G".data, "T".data]⟩ = .ok (Sum.inl ['.']) :=
  C4_multiallelic_short_circuit _ _ _ (by decide)

/-- Counterexample to claim C5 as stated: a record with ZERO alternate
alleles has neither more than one alternate nor an equal-length REF/ALT
pair, yet `convert_indel_alleles` does not succeed — the exactly-one-ALT
assert fires (the multi-allelic error). -/
theorem C5_counterexample :
    convert_indel_alleles "[I/D]".data ⟨"A".data, []⟩
        = .error .multiAllelicIndel ∧
    ¬ ∃ p, convert_indel_alleles "[I/D]".data ⟨"A".data, []⟩ = .ok p := by
  have h : convert_indel_alleles "[I/D]".data ⟨"A".data, []⟩
      = .error .multiAllelicIndel := by decide
  refine ⟨h, ?_⟩
  rintro ⟨p, hp⟩
  rw [h] at hp
  cases hp

/-- Claim C5 (amended): over valid parsed input, `convert_indel_alleles`
fails with the multi-allelic indel error whenever the record does not have
exactly one alternate allele (zero, or more than one), fails with the
ambiguous-length error whenever the single alternate has the same length
as the reference, and succeeds in all other cases. -/
theorem C5_indel_failure_modes (snp ref a1 a2 : Str) (alts : List Str)
    (hx : extract_alleles_from_snp_string snp = .ok (a1, a2)) :
    (alts.length ≠ 1 →
      convert_indel_alleles snp ⟨ref, alts⟩ = .error .multiAllelicIndel) ∧
    (∀ alt, alts = [alt] → alt.length = ref.length →
      convert_indel_alleles snp ⟨ref, alts⟩ = .error .ambiguousIndelLength) ∧
    (∀ alt, alts = [alt] → alt.length ≠ ref.length →
      ∃ p, convert_indel_alleles snp ⟨ref, alts⟩ = .ok p) := by
  refine ⟨?_, ?_, ?_⟩
  · intro hne
    rcases alts with _ | ⟨a, _ | ⟨b, t⟩⟩
    · simp [convert_indel_alleles, hx]
    · simp at hne
    · simp [convert_indel_alleles, hx]
  · rintro alt rfl heq
    simp [convert_indel_alleles, hx, heq]
  · rintro alt rfl hne2
    unfold convert_indel_alleles
    rw [hx]
    dsimp only
    rw [if_pos (show alt.length > ref.length ∨ ref.length > alt.length
      by omega)]
    split
    · exact ⟨_, rfl⟩
    · exact ⟨_, rfl⟩

/-- Witness for C5 (amended): two alternates fail multi-allelic, an
equal-length alternate fails ambiguous, a longer alternate succeeds. -/
theorem C5_witness :
    convert_indel_alleles "[I/D]".data ⟨"A".data, ["G".data, "T".data]⟩
        = .error .multiAllelicIndel ∧
    convert_indel_alleles "[I/D]".data ⟨"A".data, ["G".data]⟩
        = .error .ambiguousIndelLength ∧
    ∃ p, convert_indel_alleles "[I/D]".data ⟨"A".data, ["ATG".data]⟩
        = .ok p := by
  refine ⟨?_, ?_, ?_⟩
  · exact (C5_indel_failure_modes "[I/D]".data "A".data ['I'] ['D']
      ["G".data, "T".data] (by decide)).1 (by decide)
  · exact (C5_indel_failure_modes "[I/D]".data "A".data ['I'] ['D']
      ["G".data] (by decide)).2.1 "G".data rfl (by decide)
  · exact (C5_indel_failure_modes "[I/D]".data "A".data ['I'] ['D']
      ["ATG".data] (by decide)).2.2 "ATG".data rfl (by decide)

/-- Counterexample to claim C6 as stated: with REF "A" the resolved pair
(A, A) contains the reference allele in BOTH positions — not exactly one —
yet the probe is accepted and aggregation returns the measured frequency
unchanged instead of failing. -/
theorem C6_counterexample :
    resolve_allele_pair ⟨"[A/A]".data, RefStrand.Plus, 0, false⟩
        ⟨"A".data, ["G".data]⟩ = .ok ("A".data, "A".data) ∧
    generate_sample_format_info (fun _ => some (3/10))
        [⟨"[A/A]".data, RefStrand.Plus, 0, false⟩] ⟨"A".data, ["G".data]⟩
      = .ok (Sum.inr (3/10)) :=
  ⟨by decide, rfl⟩

/-- Claim C6 (amended): the resolved allele pair of each probe must
contain the record's reference allele in at least one of its two
positions; `generate_sample_format_info` fails with the allele-mismatch
error for any reached probe whose resolved pair matches the reference
allele in neither position, and a probe whose pair matches in at least one
position orients successfully. -/
theorem C6_allele_mismatch (freq : Nat → Option ℚ) (rec : VcfRecord)
    (pre post : List BPMRecord) (r : BPMRecord) (lst : List (Option ℚ))
    (a1 a2 : Str)
    (halt : ¬ rec.ALT.length > 1)
    (hpre : collectFreqs freq rec pre = .ok lst)
    (hres : resolve_allele_pair r rec = .ok (a1, a2))
    (hm1 : a1 ≠ rec.REF) (hm2 : a2 ≠ rec.REF) :
    generate_sample_format_info freq (pre ++ r :: post) rec
        = .error .alleleMismatch ∧
    (∀ r' b1 b2, resolve_allele_pair r' rec = .ok (b1, b2) →
      (b1 = rec.REF ∨ b2 = rec.REF) →
      ∃ v, orient_one_probe freq rec r' = .ok v) := by
  constructor
  · have hor : orient_one_probe freq rec r = .error .alleleMismatch := by
      simp [orient_one_probe, hres, hm1, hm2]
    have hc := collectFreqs_error_mid freq rec pre post r lst _ hpre hor
    unfold generate_sample_format_info
    rw [if_neg halt, hc]
  · intro r' b1 b2 hres' hor
    unfold orient_one_probe
    rw [hres']
    dsimp only
    rw [if_pos hor]
    split
    · exact ⟨_, rfl⟩
    · exact ⟨_, rfl⟩

/-- Witness for C6 (amended): REF "A" against resolved pair (G, C) fails
with the allele-mismatch error; a pair (A, G) containing REF orients. -/
theorem C6_witness :
    generate_sample_format_info (fun _ => some (3/10))
        [⟨"[G/C]".data, RefStrand.Plus, 0, false⟩] ⟨"A".data, ["G".data]⟩
        = .error .alleleMismatch ∧
    ∃ v, orient_one_probe (fun _ => some (3/10)) ⟨"A".data, ["G".data]⟩
        ⟨"[A/G]".data, RefStrand.Plus, 0, false⟩ = .ok v := by
  have h := C6_allele_mismatch (fun _ => some (3/10)) ⟨"A".data, ["G".data]⟩
    [] [] ⟨"[G/C]".data, RefStrand.Plus, 0, false⟩ [] ['G'] ['C']
    (by decide) rfl (by decide) (by decide) (by decide)
  exact ⟨h.1, h.2 ⟨"[A/G]".data, RefStrand.Plus, 0, false⟩ ['A'] ['G']
    (by decide) (Or.inl (by decide))⟩

/-- Claim C7: for every bracket string whose characters at offsets 1–3
read `X/Y` with both codes valid, the parser returns exactly the pair
(X, Y); and whenever the window splits into two tokens of which either is
not a valid code, it fails with an invalid-allele error. -/
theorem C7_parse (s : Str) :
    (∀ X Y : Char, (s.drop 1).take 3 = [X, '/', Y] →
      (REVERSE_COMPLEMENT [X]).isSome → (REVERSE_COMPLEMENT [Y]).isSome →
      extract_alleles_from_snp_string s = .ok ([X], [Y])) ∧
    (∀ a1 a2 : Str, pySplit '/' ((s.drop 1).take 3) = [a1, a2] →
      (¬ (REVERSE_COMPLEMENT a1).isSome ∨ ¬ (REVERSE_COMPLEMENT a2).isSome) →
      ∃ a, extract_alleles_from_snp_string s
        = .error (.invalidAllele a)) := by
  constructor
  · intro X Y hsub hX hY
    simp only [List.drop_one] at hsub
    have hXs : X ≠ '/' := by
      rcases rc_valid_elim [X] hX with h | h | h | h | h | h <;>
        (simp at h; subst h; decide)
    have hYs : Y ≠ '/' := by
      rcases rc_valid_elim [Y] hY with h | h | h | h | h | h <;>
        (simp at h; subst h; decide)
    simp [extract_alleles_from_snp_string, hsub, pySplit_pair X Y hXs hYs,
      hX, hY]
  · intro a1 a2 hsp hbad
    simp only [List.drop_one] at hsp
    by_cases h1 : (REVERSE_COMPLEMENT a1).isSome
    · have h2 : ¬ (REVERSE_COMPLEMENT a2).isSome := by tauto
      exact ⟨a2, by simp [extract_alleles_from_snp_string, hsp, h1, h2]⟩
    · exact ⟨a1, by simp [extract_alleles_from_snp_string, hsp, h1]⟩

/-- Witness for C7: "[T/C]" parses to (T, C); "[X/C]" fails with an
invalid-allele error. -/
theorem C7_witness :
    extract_alleles_from_snp_string "[T/C]".data = .ok (['T'], ['C']) ∧
    ∃ a, extract_alleles_from_snp_string "[X/C]".data
        = .error (.invalidAllele a) := by
  constructor
  · exact (C7_parse "[T/C]".data).1 'T' 'C' (by decide) (by decide)
      (by decide)
  · exact (C7_parse "[X/C]".data).2 ['X'] ['C'] (by decide)
      (Or.inl (by decide))

/-- Claim C8: the complement mapping is fixed and total over the valid
code set — A↔T, G↔C, I↔I, D↔D — and complementing a pair of valid codes
twice returns the original pair (the strand normalizer is self-inverse). -/
theorem C8_complement_involution :
    (REVERSE_COMPLEMENT ['A'] = some ['T'] ∧
     REVERSE_COMPLEMENT ['T'] = some ['A'] ∧
     REVERSE_COMPLEMENT ['G'] = some ['C'] ∧
     REVERSE_COMPLEMENT ['C'] = some ['G'] ∧
     REVERSE_COMPLEMENT ['I'] = some ['I'] ∧
     REVERSE_COMPLEMENT ['D'] = some ['D']) ∧
    (∀ a b : Str, (REVERSE_COMPLEMENT a).isSome →
      (REVERSE_COMPLEMENT b).isSome →
      Except.bind (complement_pair a b) (fun p => complement_pair p.1 p.2)
        = .ok (a, b)) := by
  refine ⟨by decide, ?_⟩
  intro a b ha hb
  rcases rc_valid_elim a ha with rfl | rfl | rfl | rfl | rfl | rfl <;>
    rcases rc_valid_elim b hb with rfl | rfl | rfl | rfl | rfl | rfl <;>
      decide

/-- Witness for C8: complementing the pair (A, G) twice gives back
(A, G). -/
theorem C8_witness :
    Except.bind (complement_pair ['A'] ['G'])
        (fun p => complement_pair p.1 p.2) = .ok (['A'], ['G']) :=
  C8_complement_involution.2 ['A'] ['G'] (by decide) (by decide)

/-- Claim C9: every successful result of `generate_sample_format_info` is
either the one-character missing token "." or a numeric value — never any
other string and never any other kind of value. -/
theorem C9_output_shape (freq : Nat → Option ℚ) (records : List BPMRecord)
    (rec : VcfRecord) (r : Str ⊕ ℚ)
    (h : generate_sample_format_info freq records rec = .ok r) :
    r = Sum.inl ['.'] ∨ ∃ q : ℚ, r = Sum.inr q := by
  unfold generate_sample_format_info at h
  split at h
  · exact Or.inl (Except.ok.inj h).symm
  · split at h
    · exact Except.noConfusion h
    · split at h
      · exact Or.inl (Except.ok.inj h).symm
      · exact Or.inr ⟨_, (Except.ok.inj h).symm⟩

/-- Witness for C9 at a record with no probes: the result "." has one of
the two allowed shapes. -/
theorem C9_witness :
    (Sum.inl ['.'] : Str ⊕ ℚ) = Sum.inl ['.'] ∨
    ∃ q : ℚ, (Sum.inl ['.'] : Str ⊕ ℚ) = Sum.inr q :=
  C9_output_shape (fun _ => none) [] ⟨"A".data, []⟩ (Sum.inl ['.']) rfl

/-- Claim C10: `convert_indel_alleles` depends only on the first parsed
allele code and the variant record, never on the second code — two SNP
strings with equal first codes resolve identically — and any first code
other than "I" yields the deletion-first ordering. -/
theorem C10_first_allele_only :
    (∀ (rec : VcfRecord) (s1 s2 a1 a2 b2 : Str),
      extract_alleles_from_snp_string s1 = .ok (a1, a2) →
      extract_alleles_from_snp_string s2 = .ok (a1, b2) →
      convert_indel_alleles s1 rec = convert_indel_alleles s2 rec) ∧
    (∀ snp ref alt a1 a2 : Str,
      extract_alleles_from_snp_string snp = .ok (a1, a2) → a1 ≠ ['I'] →
      ref.length ≠ alt.length →
      convert_indel_alleles snp ⟨ref, [alt]⟩ =
        .ok ((if ref.length < alt.length then ref else alt),
             (if ref.length < alt.length then alt else ref))) := by
  constructor
  · intro rec s1 s2 a1 a2 b2 h1 h2
    simp [convert_indel_alleles, h1, h2]
  · intro snp ref alt a1 a2 hx hI hlen
    rcases Nat.lt_or_gt_of_ne hlen with h | h <;>
      simp [convert_indel_alleles, hx, hI, h, Nat.lt_asymm h]

/-- Witness for C10: "[I/I]" resolves exactly like "[I/D]", and the
non-"I" first code "D" gives the deletion-first ordering ("A", "ATG"). -/
theorem C10_witness :
    convert_indel_alleles "[I/I]".data ⟨"A".data, ["ATG".data]⟩ =
      convert_indel_alleles "[I/D]".data ⟨"A".data, ["ATG".data]⟩ ∧
    convert_indel_alleles "[D/I]".data ⟨"A".data, ["ATG".data]⟩
      = .ok ("A".data, "ATG".data) := by
  constructor
  · exact C10_first_allele_only.1 ⟨"A".data, ["ATG".data]⟩
      "[I/I]".data "[I/D]".data ['I'] ['I'] ['D'] (by decide) (by decide)
  · have h := C10_first_allele_only.2 "[D/I]".data "A".data "ATG".data
      ['D'] ['I'] (by decide) (by decide) (by decide)
    rw [h]; decide

end GTCtoVCF
